import Mathlib

/-!
Verification of the Gemini-StreamChat chat session layer.

A shallow embedding of `src/chatbot.py` (the Streamlit chat application) and
`src/list_models.py`. Pure pieces of the Python code become Lean functions;
the Streamlit session state becomes an explicit `SessionState` record threaded
through the send handler; the external Gemini API becomes a `provider`
function parameter returning `Except String ProviderResponse` (an exception is
modelled by its message string). Timestamps are the strings produced by
`datetime.now().strftime("%Y-%m-%d %H:%M:%S")`; since that format is
lexicographically monotone in real time, the monotonicity of the wall clock is
carried as a `stamp1 ≤ stamp2` hypothesis on the two successive readings.
-/

namespace GStreamChat

/-! ## Data model -/

/-- An uploaded file / recording: Streamlit gives a `type` attribute that may
be missing or empty (modelled `Option String`) and raw bytes. -/
structure Attachment where
  mimeType : Option String
  data : List Nat
  deriving DecidableEq, Repr

/-- One chat turn, as stored in `st.session_state.chat`:
`{"role": ..., "content": ..., "time": ...}`. -/
structure Message where
  role : String
  content : String
  time : String
  deriving DecidableEq, Repr

/-- One element of the `parts` list handed to `model.generate_content`:
either a text string or a `{"mime_type": ..., "data": ...}` blob. -/
inductive ReqPart where
  | text (s : String)
  | blob (mimeType : String) (data : List Nat)
  deriving DecidableEq, Repr

/-- The generation configuration dict of `genai.GenerativeModel`
(`temperature`, `top_p`, `max_output_tokens`). The float constants are
modelled as exact rationals. -/
structure GenConfig where
  temperature : ℚ
  topP : ℚ
  maxOutputTokens : ℕ
  deriving DecidableEq, Repr

/-- The full request issued to the external model: the chosen model variant,
the system instruction, the generation configuration and the content parts. -/
structure Request where
  modelName : String
  systemInstruction : String
  generationConfig : GenConfig
  parts : List ReqPart
  deriving DecidableEq, Repr

/-- Model of one part of the content of a response candidate (the `.text` attribute). -/
structure RespPart where
  text : String
  deriving DecidableEq, Repr

/-- Model of the content of a response candidate (the `.parts` attribute). -/
structure RespContent where
  parts : List RespPart
  deriving DecidableEq, Repr

/-- A response candidate (`.content` attribute). -/
structure Candidate where
  content : RespContent
  deriving DecidableEq, Repr

/-- The response object of the provider: `directText` models
`getattr(response, "text", None)`, `candidates` the `.candidates` list and
`strRepr` the Python `str(response)` rendering. -/
structure ProviderResponse where
  directText : Option String
  candidates : List Candidate
  strRepr : String
  deriving DecidableEq, Repr

/-- The process environment, reduced to the one variable the program reads:
`GOOGLE_API_KEY` (absent, or present with some value). -/
structure Env where
  googleApiKey : Option String
  deriving DecidableEq, Repr

/-- The external model endpoint: a request either yields a response object or
raises, which the embedding renders as `Except.error` carrying the message
string of the exception. -/
def Provider : Type := Request → Except String ProviderResponse

/-- The mutable session state of the app: the chat history
(`st.session_state.chat`) and the active persona prompt
(`st.session_state.persona_prompt`). -/
structure SessionState where
  chat : List Message
  personaPrompt : String
  deriving DecidableEq, Repr

/-- The inputs gathered by the input row for one send: the text box, the image
uploader (a possibly empty list), the audio uploader and the microphone
recording. -/
structure SendInput where
  userText : String
  images : List Attachment
  audioUpload : Option Attachment
  micAudio : Option Attachment
  deriving DecidableEq, Repr

/-! ## Configuration constants (`chatbot.py` lines 18-22) -/

def TEXT_MODEL : String := "gemini-flash-latest"

def MULTIMODAL_MODEL : String := "gemini-2.0-flash"

def MAX_OUTPUT_TOKENS : ℕ := 512

def TEMPERATURE : ℚ := 9 / 10

def TOP_P : ℚ := 95 / 100

/-! ## Helpers (`chatbot.py` lines 56-112) -/

/-- Helper `_require_key` (lines 56-60): read `GOOGLE_API_KEY` from the environment
and raise `ValueError` when it is missing or empty (`if not api_key`). -/
def require_key (env : Env) : Except String Unit :=
  match env.googleApiKey with
  | none => .error "Missing GOOGLE_API_KEY environment variable. Set it in your terminal."
  | some k =>
    if k = "" then
      .error "Missing GOOGLE_API_KEY environment variable. Set it in your terminal."
    else .ok ()

/-- Python `x or default` on an optional string: `None` and `""` are falsy. -/
def pyOr (x : Option String) (dflt : String) : String :=
  match x with
  | none => dflt
  | some s => if s = "" then dflt else s

/-- Builder `_make_parts_from_inputs` (lines 93-112): the text part when the text is
truthy, then one blob per image (`f.type or "image/png"`), then the audio blob
if present (`getattr(audio_file, "type", None) or "audio/wav"`). -/
def make_parts_from_inputs (text : String) (image_files : List Attachment)
    (audio_file : Option Attachment) : List ReqPart :=
  (if text = "" then [] else [ReqPart.text text])
    ++ image_files.map (fun f => ReqPart.blob (pyOr f.mimeType "image/png") f.data)
    ++ (match audio_file with
        | none => []
        | some a => [ReqPart.blob (pyOr a.mimeType "audio/wav") a.data])

/-! ## `run_model` (`chatbot.py` lines 169-196) -/

/-- Line 171: `use_multimodal = (images_files and len(images_files) > 0) or
(audio_file is not None)`. -/
def use_multimodal (images_files : List Attachment) (audio_file : Option Attachment) : Bool :=
  !images_files.isEmpty || audio_file.isSome

/-- Line 172: `model_name = MULTIMODAL_MODEL if use_multimodal else TEXT_MODEL`. -/
def run_model_modelName (images_files : List Attachment) (audio_file : Option Attachment) :
    String :=
  if use_multimodal images_files audio_file then MULTIMODAL_MODEL else TEXT_MODEL

/-- Lines 184-188: the content actually sent — the built parts list in the
multimodal branch, the single string `text or "Say hello!"` otherwise. -/
def run_model_parts (text : String) (images_files : List Attachment)
    (audio_file : Option Attachment) : List ReqPart :=
  if use_multimodal images_files audio_file then
    make_parts_from_inputs text images_files audio_file
  else
    [ReqPart.text (if text = "" then "Say hello!" else text)]

/-- Lines 190-195, inner tier: `response.candidates[0].content.parts[0].text`,
with any exception (empty `candidates`, empty `parts`) caught and replaced by
`str(response)`. -/
def extract_candidate_text (r : ProviderResponse) : String :=
  match r.candidates with
  | [] => r.strRepr
  | c :: _ =>
    match c.content.parts with
    | [] => r.strRepr
    | p :: _ => p.text

/-- Lines 190-196: `text_out = getattr(response, "text", None)`; when that is
falsy (absent or empty), fall back to the first part of the first candidate, and on
failure to `str(response)`. -/
def extractText (r : ProviderResponse) : String :=
  match r.directText with
  | none => extract_candidate_text r
  | some t => if t = "" then extract_candidate_text r else t

/-- Function `run_model` (lines 169-196). Returns the result (`Except.error` when the
Python function raises) together with the request handed to
`model.generate_content`, `none` when no provider call was made. -/
def run_model (env : Env) (provider : Provider) (personaPrompt : String)
    (text : String) (images_files : List Attachment) (audio_file : Option Attachment) :
    Except String String × Option Request :=
  match require_key env with
  | .error e => (.error e, none)
  | .ok _ =>
    let req : Request :=
      { modelName := run_model_modelName images_files audio_file
        systemInstruction := personaPrompt
        generationConfig := ⟨TEMPERATURE, TOP_P, MAX_OUTPUT_TOKENS⟩
        parts := run_model_parts text images_files audio_file }
    match provider req with
    | .error e => (.error e, some req)
    | .ok r => (.ok (extractText r), some req)

/-! ## The send handler (`chatbot.py` lines 199-223) -/

/-- Line 200: the guard `not (user_text or images or audio_upload or
mic_audio)` — every input falsy means the send is rejected with a warning. -/
def send_rejected (inp : SendInput) : Bool :=
  inp.userText == "" && inp.images.isEmpty && inp.audioUpload.isNone && inp.micAudio.isNone

/-- Lines 204-210: the preview string stored as the user turn — the raw text
plus attachment annotations, then `.strip()`. -/
def preview (inp : SendInput) : String :=
  let p := inp.userText
  let p := if inp.images.isEmpty then p
    else p ++ "\n\n🖼️ " ++ toString inp.images.length ++ " image(s) attached"
  let p := if inp.audioUpload.isSome || inp.micAudio.isSome then p ++ "\n\n🎙️ audio attached"
    else p
  p.trim

/-- Line 213: `audio_source = mic_audio if mic_audio is not None else
audio_upload`. -/
def audio_source (inp : SendInput) : Option Attachment :=
  match inp.micAudio with
  | some a => some a
  | none => inp.audioUpload

/-- Lines 211-216: the assistant content of one send — the generated text, or
`f"Error: {e}"` when `run_model` raised. -/
def sendAnswer (env : Env) (provider : Provider) (st : SessionState) (inp : SendInput) :
    String :=
  match (run_model env provider st.personaPrompt inp.userText inp.images
      (audio_source inp)).1 with
  | .ok t => t
  | .error e => "Error: " ++ e

/-- Lines 199-223: the send handler. A rejected send leaves the state alone;
an accepted send appends the user turn with the first timestamp, runs the
model (any raised error becoming `f"Error: {e}"`), and appends the assistant
turn with the second timestamp. -/
def handleSend (env : Env) (provider : Provider) (st : SessionState)
    (inp : SendInput) (stamp1 stamp2 : String) : SessionState :=
  if send_rejected inp then st
  else
    { st with chat := st.chat ++ [⟨"user", preview inp, stamp1⟩,
        ⟨"assistant", sendAnswer env provider st inp, stamp2⟩] }

/-! ## JSON export (`chatbot.py` lines 237-240)

`json.dumps(st.session_state.chat, ensure_ascii=False, indent=2)` on a list of
`{"role", "content", "time"}` dicts. With `ensure_ascii=False` only `"`, `\`
and control characters below U+0020 are escaped (`\b \t \n \f \r` short forms,
`\u00xx` lowercase hex otherwise); non-ASCII characters stay literal. With
`indent=2` the array opens `[\n`, items are indented two spaces, keys four,
the item separator is `,\n`, the key separator `: `, and the empty list
renders as `[]`. Keys keep dict insertion order: role, content, time.
The parser below models `json.loads` restricted to this document shape
(whitespace-tolerant, full string-escape decoding including `\uXXXX`). -/

/-- Lowercase hexadecimal digit character for `n < 16`. -/
def hexDig (n : ℕ) : Char := if n < 10 then Char.ofNat (48 + n) else Char.ofNat (87 + n)

/-- JSON string-escaping of one character, as `json.dumps(…, ensure_ascii=False)`
performs it. -/
def jsonEscapeChar (c : Char) : List Char :=
  if c = '"' then ['\\', '"']
  else if c = '\\' then ['\\', '\\']
  else if c = '\n' then ['\\', 'n']
  else if c = '\r' then ['\\', 'r']
  else if c = '\t' then ['\\', 't']
  else if c.toNat = 8 then ['\\', 'b']
  else if c.toNat = 12 then ['\\', 'f']
  else if c.toNat < 32 then
    ['\\', 'u', '0', '0', hexDig (c.toNat / 16), hexDig (c.toNat % 16)]
  else [c]

/-- Escape a whole character sequence. -/
def escCharsOf : List Char → List Char
  | [] => []
  | c :: cs => jsonEscapeChar c ++ escCharsOf cs

/-- A JSON string literal: the escaped body in double quotes. -/
def quoteStr (s : String) : List Char := '"' :: (escCharsOf s.data ++ ['"'])

/-- One `"key": "value"` member as `json.dumps(…, indent=2)` lays it out
inside a nested object — newline, the four-space key indent, the quoted key,
the `: ` key separator, the quoted value — followed by the continuation
`rest` (the renderer is written continuation-style so that the emitted
document is built with plain conses). -/
def memberRender (key val : String) (rest : List Char) : List Char :=
  '\n' :: ' ' :: ' ' :: ' ' :: ' ' :: (quoteStr key ++ ':' :: ' ' :: (quoteStr val ++ rest))

/-- One history entry rendered as `json.dumps` renders it inside the array:
`  {\n    "role": …,\n    "content": …,\n    "time": …\n  }`, followed by
`rest`. -/
def renderMessageObjRest (m : Message) (rest : List Char) : List Char :=
  ' ' :: ' ' :: '{' ::
    memberRender "role" m.role (',' ::
      memberRender "content" m.content (',' ::
        memberRender "time" m.time ('\n' :: ' ' :: ' ' :: '}' :: rest)))

/-- Array items joined by the `,\n` item separator, followed by `rest`. -/
def joinItemsRest : List Message → List Char → List Char
  | [], rest => rest
  | [m], rest => renderMessageObjRest m rest
  | m :: ms, rest => renderMessageObjRest m (',' :: '\n' :: joinItemsRest ms rest)

/-- The whole export document: `[]` for an empty history, otherwise
`[\n` … items … `\n]`. -/
def renderChatJson (ms : List Message) : List Char :=
  match ms with
  | [] => ['[', ']']
  | _ :: _ => '[' :: '\n' :: joinItemsRest ms ['\n', ']']

/-- The string handed to `st.download_button` (byte encoding aside). -/
def exportChatJson (chat : List Message) : String := String.mk (renderChatJson chat)

/-! ### Parsing the export back (modelling `json.loads` on this shape) -/

/-- JSON insignificant whitespace. -/
def isWsChar (c : Char) : Bool := c = ' ' || c = '\t' || c = '\n' || c = '\r'

/-- Drop leading insignificant whitespace. -/
def skipWs : List Char → List Char
  | [] => []
  | c :: cs => if isWsChar c then skipWs cs else c :: cs

/-- Value of one hexadecimal digit character. -/
def hexVal (c : Char) : Option ℕ :=
  if '0' ≤ c ∧ c ≤ '9' then some (c.toNat - 48)
  else if 'a' ≤ c ∧ c ≤ 'f' then some (c.toNat - 87)
  else if 'A' ≤ c ∧ c ≤ 'F' then some (c.toNat - 55)
  else none

/-- The single-character JSON escapes. -/
def shortEsc (c : Char) : Option Char :=
  if c = '"' then some '"'
  else if c = '\\' then some '\\'
  else if c = '/' then some '/'
  else if c = 'n' then some '\n'
  else if c = 'r' then some '\r'
  else if c = 't' then some '\t'
  else if c = 'b' then some (Char.ofNat 8)
  else if c = 'f' then some (Char.ofNat 12)
  else none

/-- Decode a string body after its opening quote, up to the matching close
quote; returns the decoded characters and the remaining input. An unescaped
`"` closes the string, `\` starts an escape (`\uXXXX` or a short escape), any
other character stands for itself. -/
def readStrBody : List Char → Option (List Char × List Char)
  | [] => none
  | c :: r =>
    if c = '"' then some ([], r)
    else if c = '\\' then
      match r with
      | 'u' :: a :: b :: d :: e :: r2 =>
        match hexVal a, hexVal b, hexVal d, hexVal e with
        | some v1, some v2, some v3, some v4 =>
          (readStrBody r2).map (fun q =>
            (Char.ofNat (((v1 * 16 + v2) * 16 + v3) * 16 + v4) :: q.1, q.2))
        | _, _, _, _ => none
      | e :: r2 =>
        match shortEsc e with
        | some ch => (readStrBody r2).map (fun q => (ch :: q.1, q.2))
        | none => none
      | [] => none
    else (readStrBody r).map (fun q => (c :: q.1, q.2))

/-- Read a JSON string token (leading whitespace allowed). -/
def readString (cs : List Char) : Option (List Char × List Char) :=
  match skipWs cs with
  | '"' :: r => readStrBody r
  | _ => none

/-- Read one `"key": "value"` member whose key must equal `key`; returns the
decoded value. -/
def readMember (key : List Char) (cs : List Char) : Option (List Char × List Char) :=
  match readString cs with
  | none => none
  | some (k, r1) =>
    if k = key then
      match skipWs r1 with
      | ':' :: r2 => readString r2
      | _ => none
    else none

/-- Read one `{"role": …, "content": …, "time": …}` object into a `Message`. -/
def readMessageObj (cs : List Char) : Option (Message × List Char) :=
  match skipWs cs with
  | '{' :: r0 =>
    match readMember "role".data r0 with
    | none => none
    | some (rl, r1) =>
      match skipWs r1 with
      | ',' :: r2 =>
        match readMember "content".data r2 with
        | none => none
        | some (ct, r3) =>
          match skipWs r3 with
          | ',' :: r4 =>
            match readMember "time".data r4 with
            | none => none
            | some (tm, r5) =>
              match skipWs r5 with
              | '}' :: r6 => some (⟨String.mk rl, String.mk ct, String.mk tm⟩, r6)
              | _ => none
          | _ => none
      | _ => none
  | _ => none

/-- Read the comma-separated items of a non-empty array, consuming the closing
bracket; `fuel` bounds the item count (any bound at least the item count
works, and the caller passes the input length). -/
def readItems : ℕ → List Char → Option (List Message × List Char)
  | 0, _ => none
  | fuel + 1, cs =>
    match readMessageObj cs with
    | none => none
    | some (m, r) =>
      match skipWs r with
      | ',' :: r2 => (readItems fuel r2).map (fun q => (m :: q.1, q.2))
      | ']' :: r2 => some ([m], r2)
      | _ => none

/-- Parse a whole export document: the array, allowing only trailing
whitespace after it. -/
def parseChatJson (cs : List Char) : Option (List Message) :=
  match skipWs cs with
  | '[' :: r =>
    match skipWs r with
    | ']' :: r2 => if skipWs r2 = [] then some [] else none
    | _ =>
      match readItems cs.length r with
      | none => none
      | some (ms, rest) => if skipWs rest = [] then some ms else none
  | _ => none

/-- String-level wrapper of `parseChatJson`. -/
def parseChatJsonStr (s : String) : Option (List Message) := parseChatJson s.data

/-! ## Theorems -/

/-- The chat after an accepted send: the old history plus the user turn and
the assistant turn. -/
theorem handleSend_accepted_chat (env : Env) (provider : Provider) (st : SessionState)
    (inp : SendInput) (s1 s2 : String) (hacc : send_rejected inp = false) :
    (handleSend env provider st inp s1 s2).chat
      = st.chat ++ [⟨"user", preview inp, s1⟩,
          ⟨"assistant", sendAnswer env provider st inp, s2⟩] := by
  simp [handleSend, hacc]

/-- C1: for every accepted send (non-empty text or some attachment), exactly
one user message and one assistant message are appended, in that order; since
the two `datetime.now()` readings are taken in program order, the assistant
timestamp is at least the user timestamp (hypothesis `hclock`). -/
theorem claim_C1_send_appends_user_assistant_pair
    (env : Env) (provider : Provider) (st : SessionState) (inp : SendInput)
    (stamp1 stamp2 : String)
    (hacc : ¬(inp.userText = "" ∧ inp.images = [] ∧ inp.audioUpload = none ∧
      inp.micAudio = none))
    (hclock : stamp1 ≤ stamp2) :
    ∃ u a : Message,
      (handleSend env provider st inp stamp1 stamp2).chat = st.chat ++ [u, a] ∧
      u.role = "user" ∧ a.role = "assistant" ∧ u.time ≤ a.time := by
  have hrej : send_rejected inp = false := by
    rcases Bool.eq_false_or_eq_true (send_rejected inp) with h | h
    · exfalso
      apply hacc
      unfold send_rejected at h
      rw [Bool.and_eq_true, Bool.and_eq_true, Bool.and_eq_true] at h
      obtain ⟨⟨⟨h1, h2⟩, h3⟩, h4⟩ := h
      exact ⟨eq_of_beq h1, List.isEmpty_iff.mp h2, Option.isNone_iff_eq_none.mp h3,
        Option.isNone_iff_eq_none.mp h4⟩
    · exact h
  exact ⟨_, _, handleSend_accepted_chat env provider st inp stamp1 stamp2 hrej,
    rfl, rfl, hclock⟩

/-- Witness for C1 at a concrete send. -/
theorem claim_C1_witness :
    ∃ u a : Message,
      (handleSend ⟨some "k"⟩ (fun _ => .error "boom") ⟨[], "p"⟩ ⟨"hi", [], none, none⟩
        "10:00:00" "10:00:01").chat = [] ++ [u, a] ∧
      u.role = "user" ∧ a.role = "assistant" ∧ u.time ≤ a.time :=
  claim_C1_send_appends_user_assistant_pair ⟨some "k"⟩ (fun _ => .error "boom")
    ⟨[], "p"⟩ ⟨"hi", [], none, none⟩ "10:00:00" "10:00:01"
    (fun h => absurd h.1 (by decide)) (String.le_iff_toList_le.mpr (by decide))

/-- C3: a send with empty text and no attachments is rejected: the session
state (in particular the message store) is exactly what it was. -/
theorem claim_C3_empty_send_leaves_state_unchanged
    (env : Env) (provider : Provider) (st : SessionState) (inp : SendInput)
    (s1 s2 : String) (htext : inp.userText = "") (himg : inp.images = [])
    (hup : inp.audioUpload = none) (hmic : inp.micAudio = none) :
    handleSend env provider st inp s1 s2 = st := by
  simp [handleSend, send_rejected, htext, himg, hup, hmic]

/-- Witness for C3: the concrete empty send attempt. -/
theorem claim_C3_witness :
    handleSend ⟨some "k"⟩ (fun _ => .error "x") ⟨[⟨"user", "old", "t"⟩], "p"⟩
      ⟨"", [], none, none⟩ "s1" "s2" = ⟨[⟨"user", "old", "t"⟩], "p"⟩ :=
  claim_C3_empty_send_leaves_state_unchanged ⟨some "k"⟩ (fun _ => .error "x")
    ⟨[⟨"user", "old", "t"⟩], "p"⟩ ⟨"", [], none, none⟩ "s1" "s2" rfl rfl rfl rfl

/-- C4: when any step of `run_model` raises, the send still appends the pair,
the assistant content is literally `"Error: " ++ e` (so it starts with
`"Error: "`), no error propagates (the handler is total), and the resulting
state accepts further sends: any later accepted send appends its own pair. -/
theorem claim_C4_error_becomes_assistant_message
    (env : Env) (provider : Provider) (st : SessionState) (inp : SendInput)
    (s1 s2 : String) (e : String)
    (hacc : send_rejected inp = false)
    (herr : (run_model env provider st.personaPrompt inp.userText inp.images
      (audio_source inp)).1 = .error e) :
    (∃ u, (handleSend env provider st inp s1 s2).chat
        = st.chat ++ [u, ⟨"assistant", "Error: " ++ e, s2⟩]) ∧
    (∀ inp' s1' s2', send_rejected inp' = false →
      ∃ u' a', (handleSend env provider (handleSend env provider st inp s1 s2)
          inp' s1' s2').chat
        = (handleSend env provider st inp s1 s2).chat ++ [u', a']
        ∧ a'.role = "assistant") := by
  constructor
  · refine ⟨⟨"user", preview inp, s1⟩, ?_⟩
    have h := handleSend_accepted_chat env provider st inp s1 s2 hacc
    rw [h]
    have : sendAnswer env provider st inp = "Error: " ++ e := by
      simp [sendAnswer, herr]
    rw [this]
  · intro inp' s1' s2' hacc'
    exact ⟨_, _, handleSend_accepted_chat env provider
      (handleSend env provider st inp s1 s2) inp' s1' s2' hacc', rfl⟩

/-- Witness for C4: a provider that always raises. -/
theorem claim_C4_witness :
    (∃ u, (handleSend ⟨some "k"⟩ (fun _ => .error "boom") ⟨[], "p"⟩
        ⟨"hi", [], none, none⟩ "s1" "s2").chat
      = [] ++ [u, ⟨"assistant", "Error: " ++ "boom", "s2"⟩]) ∧
    (∀ inp' s1' s2', send_rejected inp' = false →
      ∃ u' a', (handleSend ⟨some "k"⟩ (fun _ => .error "boom")
          (handleSend ⟨some "k"⟩ (fun _ => .error "boom") ⟨[], "p"⟩
            ⟨"hi", [], none, none⟩ "s1" "s2") inp' s1' s2').chat
        = (handleSend ⟨some "k"⟩ (fun _ => .error "boom") ⟨[], "p"⟩
            ⟨"hi", [], none, none⟩ "s1" "s2").chat ++ [u', a']
        ∧ a'.role = "assistant") :=
  claim_C4_error_becomes_assistant_message ⟨some "k"⟩ (fun _ => .error "boom")
    ⟨[], "p"⟩ ⟨"hi", [], none, none⟩ "s1" "s2" "boom" (by decide) rfl

/-- C5: a non-empty image list or a present audio attachment selects the
multimodal model; otherwise the text-only model is selected. -/
theorem claim_C5_model_variant_selection
    (images : List Attachment) (audio : Option Attachment) :
    (images ≠ [] ∨ audio.isSome → run_model_modelName images audio = MULTIMODAL_MODEL) ∧
    (images = [] ∧ audio = none → run_model_modelName images audio = TEXT_MODEL) := by
  constructor
  · intro h
    rcases h with h | h
    · cases images with
      | nil => exact absurd rfl h
      | cons a l => simp [run_model_modelName, use_multimodal]
    · simp [run_model_modelName, use_multimodal, h]
  · rintro ⟨h1, h2⟩
    simp [run_model_modelName, use_multimodal, h1, h2]

/-- Witness for C5: one image forces the multimodal variant. -/
theorem claim_C5_witness :
    run_model_modelName [⟨some "image/png", [1]⟩] none = MULTIMODAL_MODEL :=
  (claim_C5_model_variant_selection [⟨some "image/png", [1]⟩] none).1
    (Or.inl (by simp))

/-- C6: the built parts are the text part (exactly when the text is
non-empty), then all image blobs in input order, then the audio blob if
present. -/
theorem claim_C6_parts_ordering
    (text : String) (images : List Attachment) (audio : Option Attachment) :
    make_parts_from_inputs text images audio
      = (if text = "" then [] else [ReqPart.text text])
        ++ images.map (fun f => ReqPart.blob (pyOr f.mimeType "image/png") f.data)
        ++ (audio.map (fun a => ReqPart.blob (pyOr a.mimeType "audio/wav") a.data)).toList := by
  cases audio <;> rfl

/-- C7: with `GOOGLE_API_KEY` absent, `run_model` fails at once with the
configuration error and sends no request at all to the provider (the recorded
request is `none`). -/
theorem claim_C7_missing_key_fails_before_network
    (env : Env) (provider : Provider) (personaPrompt text : String)
    (images : List Attachment) (audio : Option Attachment)
    (hkey : env.googleApiKey = none) :
    run_model env provider personaPrompt text images audio
      = (.error "Missing GOOGLE_API_KEY environment variable. Set it in your terminal.",
        none) := by
  simp [run_model, require_key, hkey]

/-- Witness for C7 at an empty environment. -/
theorem claim_C7_witness :
    run_model ⟨none⟩ (fun _ => .error "never") "p" "hi" [] none
      = (.error "Missing GOOGLE_API_KEY environment variable. Set it in your terminal.",
        none) :=
  claim_C7_missing_key_fails_before_network ⟨none⟩ (fun _ => .error "never")
    "p" "hi" [] none rfl

/-- C8: three-tier extraction — a truthy direct `text` field wins; otherwise
the text of the first part of the first candidate; otherwise `str(response)`. -/
theorem claim_C8_three_tier_extraction (r : ProviderResponse) :
    (∀ t, r.directText = some t → t ≠ "" → extractText r = t) ∧
    (r.directText = none ∨ r.directText = some "" →
      ∀ c cs p ps, r.candidates = c :: cs → c.content.parts = p :: ps →
        extractText r = p.text) ∧
    (r.directText = none ∨ r.directText = some "" →
      (r.candidates = [] ∨ ∃ c cs, r.candidates = c :: cs ∧ c.content.parts = []) →
      extractText r = r.strRepr) := by
  refine ⟨?_, ?_, ?_⟩
  · intro t ht hne
    simp [extractText, ht, hne]
  · intro hdt c cs p ps hc hp
    have hmid : extract_candidate_text r = p.text := by
      simp [extract_candidate_text, hc, hp]
    rcases hdt with h | h <;> simp [extractText, h, hmid]
  · intro hdt hfail
    have hmid : extract_candidate_text r = r.strRepr := by
      rcases hfail with h | ⟨c, cs, hc, hp⟩
      · simp [extract_candidate_text, h]
      · simp [extract_candidate_text, hc, hp]
    rcases hdt with h | h <;> simp [extractText, h, hmid]

/-- Witness for C8, exercising the middle tier on a concrete response. -/
theorem claim_C8_witness :
    extractText ⟨some "", [⟨⟨[⟨"part text"⟩]⟩⟩], "repr"⟩ = "part text" :=
  (claim_C8_three_tier_extraction ⟨some "", [⟨⟨[⟨"part text"⟩]⟩⟩], "repr"⟩).2.1
    (Or.inr rfl) ⟨⟨[⟨"part text"⟩]⟩⟩ [] ⟨"part text"⟩ [] rfl rfl

/-- C10: the microphone recording, when present, is the single audio
attachment handed to `run_model` (the send handler passes `audio_source inp`),
and the uploaded file is used only when there is no recording. -/
theorem claim_C10_mic_wins_over_upload (inp : SendInput) :
    (∀ m, inp.micAudio = some m → audio_source inp = some m) ∧
    (inp.micAudio = none → audio_source inp = inp.audioUpload) := by
  constructor
  · intro m hm
    simp [audio_source, hm]
  · intro hm
    simp [audio_source, hm]

/-- Witness for C10: mic and upload both present, the mic clip is chosen. -/
theorem claim_C10_witness :
    audio_source ⟨"", [], some ⟨some "audio/mp3", [9]⟩, some ⟨some "audio/wav", [5]⟩⟩
      = some ⟨some "audio/wav", [5]⟩ :=
  (claim_C10_mic_wins_over_upload
    ⟨"", [], some ⟨some "audio/mp3", [9]⟩, some ⟨some "audio/wav", [5]⟩⟩).1
    ⟨some "audio/wav", [5]⟩ rfl

/-- C2 counterexample: with empty text and one image the builder emits only
the image blob — no fallback greeting part is inserted. -/
theorem claim_C2_counterexample :
    make_parts_from_inputs "" [⟨some "image/png", [7]⟩] none
      = [ReqPart.blob "image/png" [7]] ∧
    make_parts_from_inputs "" [⟨some "image/png", [7]⟩] none
      ≠ [ReqPart.text "Say hello!", ReqPart.blob "image/png" [7]] := by
  constructor
  · rfl
  · decide

/-- C2 amended: the fallback greeting appears only on the text-only path.
With empty text and one image the content sent is just the image blob; with
empty text and no attachments `run_model` sends the single greeting part; the
content handed to `generate_content` is never the empty list. -/
theorem claim_C2_amended_sent_parts (img : Attachment) (text : String)
    (images : List Attachment) (audio : Option Attachment) :
    run_model_parts "" [img] none = [ReqPart.blob (pyOr img.mimeType "image/png") img.data] ∧
    run_model_parts "" [] none = [ReqPart.text "Say hello!"] ∧
    run_model_parts text images audio ≠ [] := by
  refine ⟨rfl, rfl, ?_⟩
  by_cases hm : use_multimodal images audio = true
  · intro hcontra
    rw [run_model_parts, if_pos hm] at hcontra
    cases audio with
    | some a => simp [make_parts_from_inputs] at hcontra
    | none =>
      cases images with
      | nil => simp [use_multimodal] at hm
      | cons f fs => simp [make_parts_from_inputs] at hcontra
  · rw [run_model_parts, if_neg hm]
    simp

/-! ### Round-trip of the JSON export (towards C9) -/

/-- Leading whitespace in front of anything is dropped. -/
theorem skipWs_ws_append (pre cs : List Char) (h : ∀ c ∈ pre, isWsChar c = true) :
    skipWs (pre ++ cs) = skipWs cs := by
  induction pre with
  | nil => rfl
  | cons c p ih =>
    have hc : isWsChar c = true := h c (List.mem_cons_self c p)
    have hp : ∀ x ∈ p, isWsChar x = true := fun x hx => h x (List.mem_cons_of_mem c hx)
    simp [skipWs, hc, ih hp]

/-- Skipping whitespace keeps a non-whitespace head. -/
theorem skipWs_not_ws (c : Char) (cs : List Char) (h : isWsChar c = false) :
    skipWs (c :: cs) = c :: cs := by
  simp [skipWs, h]

/-- Decoding with `hexVal` inverts `hexDig` on digit values. -/
theorem hexVal_hexDig (k : ℕ) (hk : k < 16) : hexVal (hexDig k) = some k := by
  interval_cases k <;> rfl

/-- Parsing undoes the escaping of a single character. -/
theorem readStrBody_escChar (c : Char) (t : List Char) :
    readStrBody (jsonEscapeChar c ++ t)
      = (readStrBody t).map (fun q => (c :: q.1, q.2)) := by
  by_cases h1 : c = '"'
  · subst h1
    rw [show jsonEscapeChar '"' ++ t = '\\' :: '"' :: t from rfl, readStrBody.eq_def]
    rfl
  by_cases h2 : c = '\\'
  · subst h2
    rw [show jsonEscapeChar '\\' ++ t = '\\' :: '\\' :: t from rfl, readStrBody.eq_def]
    rfl
  by_cases h3 : c = '\n'
  · subst h3
    rw [show jsonEscapeChar '\n' ++ t = '\\' :: 'n' :: t from rfl, readStrBody.eq_def]
    rfl
  by_cases h4 : c = '\r'
  · subst h4
    rw [show jsonEscapeChar '\r' ++ t = '\\' :: 'r' :: t from rfl, readStrBody.eq_def]
    rfl
  by_cases h5 : c = '\t'
  · subst h5
    rw [show jsonEscapeChar '\t' ++ t = '\\' :: 't' :: t from rfl, readStrBody.eq_def]
    rfl
  by_cases h6 : c.toNat = 8
  · have hc : c = Char.ofNat 8 := by rw [← h6, Char.ofNat_toNat]
    subst hc
    rw [show jsonEscapeChar (Char.ofNat 8) ++ t = '\\' :: 'b' :: t from rfl,
      readStrBody.eq_def]
    rfl
  by_cases h7 : c.toNat = 12
  · have hc : c = Char.ofNat 12 := by rw [← h7, Char.ofNat_toNat]
    subst hc
    rw [show jsonEscapeChar (Char.ofNat 12) ++ t = '\\' :: 'f' :: t from rfl,
      readStrBody.eq_def]
    rfl
  by_cases h8 : c.toNat < 32
  · rw [jsonEscapeChar, if_neg h1, if_neg h2, if_neg h3, if_neg h4, if_neg h5,
      if_neg h6, if_neg h7, if_pos h8]
    rw [show ('\\' :: 'u' :: '0' :: '0' :: hexDig (c.toNat / 16)
        :: hexDig (c.toNat % 16) :: ([] : List Char)) ++ t
      = '\\' :: 'u' :: '0' :: '0' :: hexDig (c.toNat / 16)
        :: hexDig (c.toNat % 16) :: t from rfl]
    rw [readStrBody.eq_def]
    show (match hexVal '0', hexVal '0', hexVal (hexDig (c.toNat / 16)),
        hexVal (hexDig (c.toNat % 16)) with
      | some v1, some v2, some v3, some v4 =>
        (readStrBody t).map (fun q : List Char × List Char =>
          (Char.ofNat (((v1 * 16 + v2) * 16 + v3) * 16 + v4) :: q.1, q.2))
      | _, _, _, _ => none) = _
    rw [hexVal_hexDig (c.toNat / 16) (by omega), hexVal_hexDig (c.toNat % 16) (by omega)]
    show (readStrBody t).map (fun q =>
      (Char.ofNat (((0 * 16 + 0) * 16 + c.toNat / 16) * 16 + c.toNat % 16) :: q.1, q.2)) = _
    have harith : ((0 * 16 + 0) * 16 + c.toNat / 16) * 16 + c.toNat % 16 = c.toNat := by
      omega
    simp only [harith, Char.ofNat_toNat]
  · rw [jsonEscapeChar, if_neg h1, if_neg h2, if_neg h3, if_neg h4, if_neg h5,
      if_neg h6, if_neg h7, if_neg h8, show [c] ++ t = c :: t from rfl,
      readStrBody.eq_def]
    simp [h1, h2]

/-- Parsing a fully escaped run stops exactly at the closing quote. -/
theorem readStrBody_escCharsOf (s : List Char) : ∀ t : List Char,
    readStrBody (escCharsOf s ++ '"' :: t) = some (s, t) := by
  induction s with
  | nil =>
    intro t
    rw [escCharsOf, List.nil_append, readStrBody.eq_def]
    rfl
  | cons c cs ih =>
    intro t
    rw [escCharsOf, List.append_assoc, readStrBody_escChar, ih t]
    rfl

/-- Reading a rendered string literal recovers the string. -/
theorem readString_quote (s : String) (rest : List Char) :
    readString (quoteStr s ++ rest) = some (s.data, rest) := by
  have h1 : quoteStr s ++ rest = '"' :: (escCharsOf s.data ++ '"' :: rest) := by
    simp [quoteStr]
  rw [h1, readString.eq_def, skipWs_not_ws '"' _ rfl]
  exact readStrBody_escCharsOf s.data rest

/-- Skipping whitespace drops a whitespace head. -/
theorem skipWs_ws (c : Char) (cs : List Char) (h : isWsChar c = true) :
    skipWs (c :: cs) = skipWs cs := by
  simp [skipWs, h]

theorem isWsChar_sp : isWsChar ' ' = true := rfl

theorem isWsChar_nl : isWsChar '\n' = true := rfl

theorem isWsChar_lcurly : isWsChar '{' = false := rfl

theorem isWsChar_rcurly : isWsChar '}' = false := rfl

theorem isWsChar_comma : isWsChar ',' = false := rfl

theorem isWsChar_rbrack : isWsChar ']' = false := rfl

/-- Reading a string token ignores a leading whitespace character. -/
theorem readString_ws_cons (c : Char) (cs : List Char) (h : isWsChar c = true) :
    readString (c :: cs) = readString cs := by
  rw [readString.eq_def, readString.eq_def, skipWs_ws c cs h]

/-- Reading one rendered `"key": "value"` member recovers the value. -/
theorem readMember_render (key val : String) (rest : List Char) :
    readMember key.data (memberRender key val rest) = some (val.data, rest) := by
  rw [memberRender, readMember.eq_def]
  rw [readString_ws_cons '\n' _ rfl, readString_ws_cons ' ' _ rfl,
    readString_ws_cons ' ' _ rfl, readString_ws_cons ' ' _ rfl,
    readString_ws_cons ' ' _ rfl, readString_quote]
  show (if key.data = key.data then
      (match skipWs (':' :: ' ' :: (quoteStr val ++ rest)) with
        | ':' :: r2 => readString r2
        | _ => none)
    else none) = some (val.data, rest)
  rw [if_pos rfl, skipWs_not_ws ':' _ rfl]
  show readString (' ' :: (quoteStr val ++ rest)) = some (val.data, rest)
  rw [readString_ws_cons ' ' _ rfl, readString_quote]

/-- Reading an object ignores a leading whitespace character. -/
theorem readMessageObj_ws_cons (c : Char) (cs : List Char) (h : isWsChar c = true) :
    readMessageObj (c :: cs) = readMessageObj cs := by
  rw [readMessageObj.eq_def, readMessageObj.eq_def, skipWs_ws c cs h]

/-- Reading one rendered history object recovers the message. -/
theorem readMessageObj_render (m : Message) (rest : List Char) :
    readMessageObj (renderMessageObjRest m rest) = some (m, rest) := by
  rw [renderMessageObjRest, readMessageObj.eq_def]
  rw [skipWs_ws ' ' _ rfl, skipWs_ws ' ' _ rfl, skipWs_not_ws '{' _ rfl]
  simp only []
  rw [readMember_render "role" m.role _]
  simp only []
  rw [skipWs_not_ws ',' _ rfl]
  simp only []
  rw [readMember_render "content" m.content _]
  simp only []
  rw [skipWs_not_ws ',' _ rfl]
  simp only []
  rw [readMember_render "time" m.time _]
  simp only []
  rw [skipWs_ws '\n' _ rfl, skipWs_ws ' ' _ rfl, skipWs_ws ' ' _ rfl,
    skipWs_not_ws '}' _ rfl]
  rfl

/-- Reading the rendered items of a non-empty history recovers the list, with
any fuel above the item count. -/
theorem readItems_join (ms : List Message) : ∀ (m : Message) (fuel : ℕ) (rest : List Char),
    ms.length < fuel →
    readItems fuel ('\n' :: joinItemsRest (m :: ms) ('\n' :: ']' :: rest))
      = some (m :: ms, rest) := by
  induction ms with
  | nil =>
    intro m fuel rest h
    cases fuel with
    | zero => exact absurd h (by omega)
    | succ f =>
      rw [show joinItemsRest [m] ('\n' :: ']' :: rest)
          = renderMessageObjRest m ('\n' :: ']' :: rest) from rfl]
      rw [readItems, readMessageObj_ws_cons '\n' _ rfl, readMessageObj_render]
      simp only []
      rw [skipWs_ws '\n' _ rfl, skipWs_not_ws ']' _ rfl]
      rfl
  | cons m2 ms2 ih =>
    intro m fuel rest h
    cases fuel with
    | zero => exact absurd h (by omega)
    | succ f =>
      rw [show joinItemsRest (m :: m2 :: ms2) ('\n' :: ']' :: rest)
          = renderMessageObjRest m
              (',' :: '\n' :: joinItemsRest (m2 :: ms2) ('\n' :: ']' :: rest)) from rfl]
      rw [readItems, readMessageObj_ws_cons '\n' _ rfl, readMessageObj_render]
      simp only []
      rw [skipWs_not_ws ',' _ rfl]
      show (readItems f ('\n' :: joinItemsRest (m2 :: ms2) ('\n' :: ']' :: rest))).map
        (fun q => (m :: q.1, q.2)) = some (m :: m2 :: ms2, rest)
      rw [ih m2 f rest (by simp only [List.length_cons] at h; omega)]
      rfl

/-- Rendering one object strictly lengthens the output. -/
theorem renderMessageObjRest_length (m : Message) (rest : List Char) :
    rest.length + 1 ≤ (renderMessageObjRest m rest).length := by
  simp [renderMessageObjRest, memberRender, quoteStr]
  omega

/-- The rendered items are at least as many characters as there are items. -/
theorem joinItemsRest_length (ms : List Message) : ∀ (m : Message) (rest : List Char),
    ms.length + 1 ≤ (joinItemsRest (m :: ms) rest).length := by
  induction ms with
  | nil =>
    intro m rest
    rw [show joinItemsRest [m] rest = renderMessageObjRest m rest from rfl]
    have := renderMessageObjRest_length m rest
    simp only [List.length_nil]
    omega
  | cons m2 ms2 ih =>
    intro m rest
    rw [show joinItemsRest (m :: m2 :: ms2) rest
        = renderMessageObjRest m (',' :: '\n' :: joinItemsRest (m2 :: ms2) rest) from rfl]
    have h1 := renderMessageObjRest_length m (',' :: '\n' :: joinItemsRest (m2 :: ms2) rest)
    have h2 := ih m2 rest
    simp only [List.length_cons] at h1 h2 ⊢
    omega

/-- C9: serialising any Message Store state with the JSON export
(`json.dumps(chat, ensure_ascii=False, indent=2)`) and parsing the document
back yields exactly the in-memory sequence of `{role, content, time}`
records, element by element in order. -/
theorem claim_C9_json_export_roundtrip (chat : List Message) :
    parseChatJsonStr (exportChatJson chat) = some chat := by
  cases chat with
  | nil => rfl
  | cons m ms =>
    show parseChatJson ('[' :: '\n' :: joinItemsRest (m :: ms) ['\n', ']'])
      = some (m :: ms)
    obtain ⟨Q, hQ⟩ : ∃ Q, joinItemsRest (m :: ms) ['\n', ']'] = ' ' :: ' ' :: '{' :: Q := by
      cases ms with
      | nil => exact ⟨_, rfl⟩
      | cons m2 ms2 => exact ⟨_, rfl⟩
    have hsw : skipWs ('\n' :: joinItemsRest (m :: ms) ['\n', ']']) = '{' :: Q := by
      rw [hQ, skipWs_ws '\n' _ rfl, skipWs_ws ' ' _ rfl, skipWs_ws ' ' _ rfl,
        skipWs_not_ws '{' _ rfl]
    have hItems : readItems (('[' :: '\n' :: joinItemsRest (m :: ms) ['\n', ']']).length)
        ('\n' :: joinItemsRest (m :: ms) ['\n', ']']) = some (m :: ms, []) := by
      apply readItems_join
      have hlen := joinItemsRest_length ms m (['\n', ']'] : List Char)
      simp only [List.length_cons]
      omega
    rw [parseChatJson.eq_def, skipWs_not_ws '[' _ rfl]
    simp only []
    rw [hsw]
    rw [hItems]
    rfl

/-- Witness for the amended claim C2 at concrete inputs. -/
theorem claim_C2_amended_witness :
    run_model_parts "" [⟨some "image/png", [7]⟩] none = [ReqPart.blob "image/png" [7]] ∧
    run_model_parts "" [] none = [ReqPart.text "Say hello!"] ∧
    run_model_parts "hey" [] none ≠ [] :=
  ⟨(claim_C2_amended_sent_parts ⟨some "image/png", [7]⟩ "hey" [] none).1,
   (claim_C2_amended_sent_parts ⟨some "image/png", [7]⟩ "hey" [] none).2.1,
   (claim_C2_amended_sent_parts ⟨some "image/png", [7]⟩ "hey" [] none).2.2⟩

end GStreamChat
